import Mathlib

/-!
Verification of the sandboxed execution core of CodeForge
(`backend/src/api/routes/run.py`).

The Python source is shallowly embedded below:
* `RunResponse` mirrors the pydantic model (floats idealised as `ℚ`,
  `Optional[int]`/`Optional[float]` as `Option`).
* `time_to_seconds` mirrors the function of the same name; Python
  exceptions (`ValueError` from `int(...)`, unpack errors, `IndexError`)
  become an `Except ExecError` result.
* `split_telemetry`, `parseStderr` mirror the stderr-splitting and
  telemetry-parsing lines of the worker `target`.
* `target`, `run_command`, `classify_run_code`, `run_code_result` mirror
  the worker body, the supervisor, and the final classification block of
  `run_code`.  The outcome of `subprocess.Popen`/`communicate` is a
  parameter (`ProcOutcome`), and the watchdog `thread.join(timeout)`
  expiring is a Boolean parameter, since real process execution is
  outside the embedding.
* `nsjail_cmd`, `time_cmd`, `full_command`, `watchdog_window` mirror the
  command construction and the `thread.join(timeout)` window.

Only `\n` line separators are modelled for `str.splitlines` (the other
Python line boundaries such as `\r` do not occur in this pipeline), and
Python `int(...)` is modelled without the underscore-grouping extension.
`round(x, 3)` is idealised as exact rational rounding half-to-even at
the third decimal.
-/

/-- Exceptions that the worker body of `run_command` can raise while
decoding telemetry, with the text Python's `str(e)` would produce. -/
inductive ExecError where
  | notEnoughValues (expected got : Nat)
  | tooManyValues (expected : Nat)
  | indexError
  | intError (s : String)
  deriving DecidableEq, Repr

/-- Python `str(e)` for each modelled exception. -/
def excMessage : ExecError → String
  | .notEnoughValues e g => s!"not enough values to unpack (expected {e}, got {g})"
  | .tooManyValues e => s!"too many values to unpack (expected {e})"
  | .indexError => "list index out of range"
  | .intError s => "invalid literal for int() with base 10: \x27" ++ s ++ "\x27"

instance {ε α : Type} [DecidableEq ε] [DecidableEq α] : DecidableEq (Except ε α)
  | .error a, .error b =>
    if h : a = b then .isTrue (by rw [h]) else .isFalse (by simp [h])
  | .error _, .ok _ => .isFalse (by simp)
  | .ok _, .error _ => .isFalse (by simp)
  | .ok a, .ok b =>
    if h : a = b then .isTrue (by rw [h]) else .isFalse (by simp [h])

/-- The pydantic `RunResponse` model with its field defaults
(`run.py` lines 34-43).  Floats are idealised as rationals. -/
structure RunResponse where
  stdout : String := ""
  stderr : String := ""
  return_code : Option ℤ := none
  elapsed_time : Option ℚ := none
  memory_usage : Option ℚ := none
  timeout : Bool := false
  test_passed : Bool := false
  message : String
  deriving DecidableEq, Repr

/-- Python whitespace characters recognised by `str.split()` with no
argument. -/
def isPySpace (c : Char) : Bool :=
  c = ' ' ∨ c = '\t' ∨ c = '\n' ∨ c = '\r' ∨ c = '\x0b' ∨ c = '\x0c'

/-- Split a character list at every character satisfying `p`, keeping
empty components (the list-level analogue of Python `str.split(sep)`
for a one-character separator); the result is never empty. -/
def splitByPred (p : Char → Bool) : List Char → List (List Char)
  | [] => [[]]
  | c :: rest =>
    let r := splitByPred p rest
    if p c then [] :: r
    else (c :: r.headD []) :: r.tail

/-- Python `s.split(sep)` for a one-character separator `sep`. -/
def strSplitOnChar (sep : Char) (s : String) : List String :=
  (splitByPred (fun c => c = sep) s.toList).map String.mk

/-- Python `s.split()`: split on runs of whitespace, no empty tokens. -/
def pySplit (s : String) : List String :=
  ((splitByPred isPySpace s.toList).filter (· ≠ [])).map String.mk

/-- Python `s.strip()`. -/
def pyTrim (l : List Char) : List Char :=
  ((l.dropWhile isPySpace).reverse.dropWhile isPySpace).reverse

/-- Numeric value of a digit string. -/
def digitsToNat (ds : List Char) : ℕ :=
  ds.foldl (fun a c => 10 * a + (c.toNat - 48)) 0

/-- Python `int(s)` restricted to the forms that occur here: optional
surrounding whitespace, an optional sign, then decimal digits.  Anything
else raises `ValueError` (modelled as `ExecError.intError`). -/
def pyInt (s : String) : Except ExecError ℤ :=
  let cs := pyTrim s.toList
  let signAndDigits : ℤ × List Char :=
    match cs with
    | '-' :: rest => (-1, rest)
    | '+' :: rest => (1, rest)
    | _ => (1, cs)
  if signAndDigits.2 ≠ [] ∧ signAndDigits.2.all Char.isDigit then
    .ok (signAndDigits.1 * digitsToNat signAndDigits.2)
  else
    .error (.intError s)

/-- `time_to_seconds` (`run.py` lines 167-184): converts `/bin/time`
`%E` output (`H:MM:SS.cc` or `M:SS.cc`) to seconds.  Python exceptions
surface as `Except.error`. -/
def time_to_seconds (time_str : String) : Except ExecError ℚ := do
  let parts0 := strSplitOnChar ':' time_str
  let hasHours := decide (parts0.length = 3)
  let h : ℤ ← if hasHours then pyInt (parts0.headD "") else pure 0
  let parts := if hasHours then parts0.drop 1 else parts0
  let m ← pyInt (parts.headD "")
  match parts.get? 1 with
  | none => throw .indexError
  | some p1 =>
    if '.' ∈ p1.toList then
      match strSplitOnChar '.' p1 with
      | [secs, msecs] => do
          let sv ← pyInt secs
          let fv ← pyInt msecs
          pure (((h * 3600 + m * 60 + sv : ℤ) : ℚ) + (fv : ℚ) / 100)
      | l => throw (if l.length < 2 then .notEnoughValues 2 l.length
                    else .tooManyValues 2)
    else do
      let sv ← pyInt p1
      pure (((h * 3600 + m * 60 + sv : ℤ) : ℚ))

/-- Splitter underlying `str.splitlines` for `\n`-separated text:
every `\n` starts a new line; the result is never empty. -/
def splitLF (l : List Char) : List (List Char) :=
  splitByPred (fun c => c = '\n') l

/-- Python `splitlines` does not produce a final empty line for text
ending in a line separator: drop one trailing empty component. -/
def dropTrailingEmpty : List (List Char) → List (List Char)
  | [] => []
  | [l] => if l = [] then [] else [l]
  | l :: rest => l :: dropTrailingEmpty rest

/-- Python `s.splitlines()` for `\n`-separated text. -/
def pySplitlines (s : String) : List String :=
  if s = "" then []
  else (dropTrailingEmpty (splitLF s.toList)).map String.mk

/-- Python `"\n".join(ls)`. -/
def pyJoinLines : List String → String
  | [] => ""
  | [l] => l
  | l :: ls => l ++ "\n" ++ pyJoinLines ls

/-- The stderr-splitting line of the worker (`run.py` line 134):
`stderr, time_output = ("\n".join(split_stderr[:-1]), split_stderr[-1])
if len(split_stderr) > 1 else ("", stderr)`. -/
def split_telemetry (stderr : String) : String × String :=
  let split_stderr := pySplitlines stderr
  if split_stderr.length > 1 then
    (pyJoinLines split_stderr.dropLast, split_stderr.getLastD "")
  else ("", stderr)

/-- The telemetry-decoding lines of the worker (`run.py` lines 133-137):
split off the telemetry line, unpack it into exactly two tokens, parse
the elapsed time and the integer memory figure.  Returns the cleaned
stderr, elapsed seconds and memory in KB, or the Python exception. -/
def parseStderr (stderr : String) : Except ExecError (String × ℚ × ℤ) := do
  let (cleaned, time_output) := split_telemetry stderr
  match pySplit time_output with
  | [a, b] => do
      let elapsed ← time_to_seconds a
      let mem ← pyInt b
      pure (cleaned, elapsed, mem)
  | l => throw (if l.length < 2 then .notEnoughValues 2 l.length
                else .tooManyValues 2)

/-- Round half to even to the nearest integer (Python `round`),
computed from the reduced numerator and denominator: with
`f = ⌊q⌋` and remainder `r = q - f`, compare `2 * r` against `1`. -/
def roundHalfEven (q : ℚ) : ℤ :=
  let n := q.num
  let d := (q.den : ℤ)
  let f := Int.ediv n d
  let r2 := 2 * (n - f * d)
  if r2 < d then f
  else if d < r2 then f + 1
  else if Int.emod f 2 = 0 then f else f + 1

/-- Python `round(x, 3)`, idealised over exact rationals. -/
def round3 (q : ℚ) : ℚ := (roundHalfEven (q * 1000) : ℚ) / 1000

/-- What `subprocess.Popen(...).communicate(...)` did inside the worker:
completed with captured output and an exit code, raised
`subprocess.TimeoutExpired`, or raised some other exception whose
`str(e)` is `msg` (e.g. a spawn failure). -/
inductive ProcOutcome where
  | completed (stdout stderr : String) (returncode : ℤ)
  | timedOut
  | spawnError (msg : String)
  deriving DecidableEq, Repr

/-- The worker `target` of `run_command` (`run.py` lines 108-154):
starting from the freshly constructed `RunResponse(message="")`, decode
the telemetry, set `timeout` on the nsjail kill code 137, and populate
the result; `subprocess.TimeoutExpired` sets only `timeout`; any other
exception sets only `message = str(e)`. -/
def target (outcome : ProcOutcome) : RunResponse :=
  match outcome with
  | .timedOut => { message := "", timeout := true }
  | .spawnError msg => { message := msg }
  | .completed stdout stderr rc =>
    match parseStderr stderr with
    | .error e => { message := excMessage e }
    | .ok (cleaned, elapsed, mem) =>
      { stdout := stdout
        stderr := cleaned
        return_code := some rc
        elapsed_time := some (round3 elapsed)
        memory_usage := some (round3 ((mem : ℚ) / 1024))
        timeout := rc == 137
        message := "" }

/-- `run_command` after the worker thread is joined (`run.py` lines
156-161): if `thread.join(timeout)` expired while the worker was still
alive, force `timeout := true` on whatever the worker produced. -/
def run_command (outcome : ProcOutcome) (watchdogFired : Bool) : RunResponse :=
  let result := target outcome
  if watchdogFired then { result with timeout := true } else result

/-- The final classification block of `run_code` (`run.py` lines 60-72):
a non-empty message is returned untouched; otherwise the message is
chosen from timeout, then `return_code != 0` (Python: `None != 0` is
true), then `return_code is None`, else success. -/
def classify_run_code (result : RunResponse) : RunResponse :=
  if result.message ≠ "" then result
  else if result.timeout then { result with message := "Time limit exceeded" }
  else if result.return_code ≠ some 0 then { result with message := "Runtime error" }
  else if result.return_code = none then { result with message := "Server error" }
  else { result with message := "Success" }

/-- End-to-end result of `run_code` for a given process outcome and
watchdog state: `run_command` followed by the classification block. -/
def run_code_result (outcome : ProcOutcome) (watchdogFired : Bool) : RunResponse :=
  classify_run_code (run_command outcome watchdogFired)

/-- The nsjail invocation prefix built by the worker (`run.py` lines
112-117). -/
def nsjail_cmd (memory_limit : ℕ) (timeLimit : ℕ) (tempdir : String) : List String :=
  ["nsjail", "-Mo", "-q", "--user", "99999", "--group", "99999",
   "--rlimit_as=" ++ toString memory_limit, "--time_limit=" ++ toString timeLimit,
   "-R", "/bin/", "-R", "/lib/", "-R", "/lib64/", "-R", "/usr/", "-R", "/etc/alternatives/",
   "-B", tempdir, "-D", tempdir, "--keep_env", "--"]

/-- The `/bin/time` wrapper (`run.py` line 118). -/
def time_cmd : List String := ["/bin/time", "-a", "-f", "%E %M", "--"]

/-- The full argv executed by the worker (`run.py` line 119):
`command = nsjail_cmd + time_cmd + command`. -/
def full_command (memory_limit timeLimit : ℕ) (tempdir : String)
    (command : List String) : List String :=
  nsjail_cmd memory_limit timeLimit tempdir ++ time_cmd ++ command

/-- The wall-clock window of the supervisor watchdog
(`thread.join(timeout)`, `run.py` line 158). -/
def watchdog_window (timeLimit : ℕ) : ℕ := timeLimit

/-! ### Helper lemmas -/

lemma roundHalfEven_intCast (n : ℤ) : roundHalfEven (n : ℚ) = n := by
  have h1 : Int.ediv n 1 = n := Int.ediv_one n
  simp [roundHalfEven, Rat.num_intCast, Rat.den_intCast, h1]

lemma round3_eq_of_mul_1000 (q : ℚ) (n : ℤ) (h : q * 1000 = (n : ℚ)) :
    round3 q = (n : ℚ) / 1000 := by
  rw [round3, h, roundHalfEven_intCast]

lemma tts_ms (tstr ms ss secs msecs : String) (m s c : ℤ)
    (hsplit : strSplitOnChar ':' tstr = [ms, ss])
    (hm : pyInt ms = .ok m)
    (hdot : '.' ∈ ss.toList)
    (hfrac : strSplitOnChar '.' ss = [secs, msecs])
    (hs : pyInt secs = .ok s)
    (hc : pyInt msecs = .ok c) :
    time_to_seconds tstr = .ok (((m * 60 + s : ℤ) : ℚ) + (c : ℚ) / 100) := by
  simp [time_to_seconds, hsplit, hm, hdot, hfrac, hs, hc, bind, Except.bind, pure, Except.pure]
  intro hcon
  exact absurd hdot hcon

lemma tts_hms (tstr hs0 ms ss secs msecs : String) (h m s c : ℤ)
    (hsplit : strSplitOnChar ':' tstr = [hs0, ms, ss])
    (hh : pyInt hs0 = .ok h)
    (hm : pyInt ms = .ok m)
    (hdot : '.' ∈ ss.toList)
    (hfrac : strSplitOnChar '.' ss = [secs, msecs])
    (hsec : pyInt secs = .ok s)
    (hc : pyInt msecs = .ok c) :
    time_to_seconds tstr = .ok (((h * 3600 + m * 60 + s : ℤ) : ℚ) + (c : ℚ) / 100) := by
  simp [time_to_seconds, hsplit, hh, hm, hdot, hfrac, hsec, hc, bind, Except.bind, pure,
    Except.pure]
  intro hcon
  exact absurd hdot hcon

lemma parseStderr_ok (stderr cleaned tout tokA tokB : String) (el : ℚ) (mem : ℤ)
    (hsplit : split_telemetry stderr = (cleaned, tout))
    (htoks : pySplit tout = [tokA, tokB])
    (hel : time_to_seconds tokA = .ok el)
    (hmem : pyInt tokB = .ok mem) :
    parseStderr stderr = .ok (cleaned, el, mem) := by
  simp [parseStderr, hsplit, htoks, hel, hmem, bind, Except.bind, pure, Except.pure]

lemma target_completed_ok (stdout stderr : String) (rc : ℤ) (cleaned : String)
    (el : ℚ) (mem : ℤ) (hparse : parseStderr stderr = .ok (cleaned, el, mem)) :
    target (.completed stdout stderr rc) =
      { stdout := stdout
        stderr := cleaned
        return_code := some rc
        elapsed_time := some (round3 el)
        memory_usage := some (round3 ((mem : ℚ) / 1024))
        timeout := rc == 137
        message := "" } := by
  simp [target, hparse]

lemma target_completed_error (stdout stderr : String) (rc : ℤ) (e : ExecError)
    (hparse : parseStderr stderr = .error e) :
    target (.completed stdout stderr rc) = { message := excMessage e } := by
  simp [target, hparse]

lemma strData_append (a b : String) : (a ++ b).data = a.data ++ b.data := by
  cases a
  cases b
  rfl

lemma append_ne_empty_right (a b : String) (h : b ≠ "") : a ++ b ≠ "" := by
  intro hcon
  have hd := congrArg String.data hcon
  rw [strData_append] at hd
  apply h
  cases b
  have hb := (List.append_eq_nil.mp (by simpa using hd)).2
  simp [hb]

lemma excMessage_ne_empty (e : ExecError) : excMessage e ≠ "" := by
  cases e with
  | notEnoughValues a b =>
    exact append_ne_empty_right _ _ (by decide)
  | tooManyValues a =>
    exact append_ne_empty_right _ _ (by decide)
  | indexError => decide
  | intError s =>
    exact append_ne_empty_right _ _ (by decide)

lemma str_ne_empty_of_data_ne_nil (s : String) (h : s.data ≠ []) : s ≠ "" := by
  intro hc
  apply h
  simpa using congrArg String.data hc

lemma splitByPred_ne_nil (p : Char → Bool) (l : List Char) : splitByPred p l ≠ [] := by
  cases l with
  | nil => simp [splitByPred]
  | cons c rest => simp only [splitByPred]; split <;> simp

lemma splitLF_no_newline (l : List Char) (h : '\n' ∉ l) : splitLF l = [l] := by
  induction l with
  | nil => rfl
  | cons c rest ih =>
    simp only [List.mem_cons, not_or] at h
    simp [splitLF, splitByPred] at ih ⊢
    simp [Ne.symm h.1, ih h.2]

lemma splitLF_append_cons (l t : List Char) (h : '\n' ∉ l) :
    splitLF (l ++ '\n' :: t) = l :: splitLF t := by
  induction l with
  | nil => simp [splitLF, splitByPred]
  | cons c l2 ih =>
    simp only [List.mem_cons, not_or] at h
    simp [splitLF, splitByPred] at ih ⊢
    simp [Ne.symm h.1, ih h.2]

lemma pyJoinLines_cons_cons_data (a b : String) (t : List String) :
    (pyJoinLines (a :: b :: t)).data = a.data ++ '\n' :: (pyJoinLines (b :: t)).data := by
  show ((a ++ "\n") ++ pyJoinLines (b :: t)).data = _
  rw [strData_append, strData_append]
  simp

lemma splitLF_join_data (ls : List String) (h : ls ≠ [])
    (hnl : ∀ l ∈ ls, '\n' ∉ l.data) :
    splitLF (pyJoinLines ls).data = ls.map String.data := by
  induction ls with
  | nil => exact absurd rfl h
  | cons a t ih =>
    cases t with
    | nil =>
      show splitLF a.data = [a.data]
      exact splitLF_no_newline _ (hnl a (by simp))
    | cons b t2 =>
      rw [pyJoinLines_cons_cons_data, splitLF_append_cons _ _ (hnl a (by simp))]
      rw [ih (by simp) (fun l hl => hnl l (List.mem_cons_of_mem _ hl))]
      simp

lemma dropTrailingEmpty_concat (L : List (List Char)) (a : List Char) (ha : a ≠ []) :
    dropTrailingEmpty (L ++ [a]) = L ++ [a] := by
  induction L with
  | nil => simp [dropTrailingEmpty, ha]
  | cons x L2 ih =>
    cases L2 with
    | nil => simp [dropTrailingEmpty, ha]
    | cons y L3 =>
      simp only [List.cons_append, dropTrailingEmpty]
      exact congrArg (List.cons x) ih

lemma data_ne_nil_of_ne_empty (s : String) (h : s ≠ "") : s.data ≠ [] := by
  intro hc
  apply h
  cases s
  simp only at hc
  simp [hc]

lemma pySplitlines_join_concat (init : List String) (last : String)
    (hinit : init ≠ []) (hnl : ∀ l ∈ init, '\n' ∉ l.data) (hnll : '\n' ∉ last.data)
    (hlast : last ≠ "") :
    pySplitlines (pyJoinLines (init ++ [last])) = init ++ [last] := by
  obtain ⟨a, init2, rfl⟩ := List.exists_cons_of_ne_nil hinit
  obtain ⟨b, t, hbt⟩ : ∃ b t, init2 ++ [last] = b :: t :=
    List.exists_cons_of_ne_nil (List.append_ne_nil_of_right_ne_nil _ (by simp))
  have hall : ∀ l ∈ (a :: init2) ++ [last], '\n' ∉ l.data := by
    intro l hl
    rcases List.mem_append.mp hl with h1 | h1
    · exact hnl l h1
    · simp at h1
      subst h1
      exact hnll
  have hdata : splitLF (pyJoinLines ((a :: init2) ++ [last])).data
      = ((a :: init2) ++ [last]).map String.data := by
    exact splitLF_join_data _ (by simp) hall
  have hjoin_ne : pyJoinLines ((a :: init2) ++ [last]) ≠ "" := by
    apply str_ne_empty_of_data_ne_nil
    rw [List.cons_append, hbt, pyJoinLines_cons_cons_data]
    simp
  unfold pySplitlines
  rw [if_neg hjoin_ne]
  show (dropTrailingEmpty
    (splitLF (pyJoinLines (a :: init2 ++ [last])).data)).map String.mk = _
  rw [hdata]
  have hmapcat : ((a :: init2) ++ [last]).map String.data
      = ((a :: init2).map String.data) ++ [last.data] := by simp
  rw [hmapcat, dropTrailingEmpty_concat _ _ (data_ne_nil_of_ne_empty _ hlast), ← hmapcat,
    List.map_map]
  have hid : (String.mk ∘ String.data) = id := rfl
  rw [hid, List.map_id]

lemma split_telemetry_multi (init : List String) (last : String)
    (hinit : init ≠ []) (hnl : ∀ l ∈ init, '\n' ∉ l.data) (hnll : '\n' ∉ last.data)
    (hlast : last ≠ "") :
    split_telemetry (pyJoinLines (init ++ [last])) = (pyJoinLines init, last) := by
  unfold split_telemetry
  rw [pySplitlines_join_concat init last hinit hnl hnll hlast]
  have hlen : (init ++ [last]).length > 1 := by
    obtain ⟨a, init2, rfl⟩ := List.exists_cons_of_ne_nil hinit
    simp
  rw [if_pos hlen, List.dropLast_concat, List.getLastD_concat]

lemma split_telemetry_single (l : String) (h : '\n' ∉ l.data) :
    split_telemetry l = ("", l) := by
  unfold split_telemetry
  by_cases hl : l = ""
  · subst hl
    simp [pySplitlines]
  · have hsplit : pySplitlines l = [l] := by
      unfold pySplitlines
      rw [if_neg hl]
      show (dropTrailingEmpty (splitLF l.data)).map String.mk = _
      rw [splitLF_no_newline l.data h]
      simp [dropTrailingEmpty, data_ne_nil_of_ne_empty l hl]
    simp [hsplit]

/-! ### Claims -/

/-- C1: the claim says a result with empty message, timed-out false and
absent exit code is classified "Server error".  The code classifies it
"Runtime error": in Python `None != 0` is true, so the
`return_code != 0` branch fires first and the `return_code is None`
branch is unreachable.  Evaluated here both on the bare classifier state
and on a full run whose worker raised an exception with empty text. -/
theorem C1_absent_exit_code_classified_runtime_error :
    (classify_run_code { message := "" }).return_code = none ∧
    (classify_run_code { message := "" }).timeout = false ∧
    (classify_run_code { message := "" }).message = "Runtime error" ∧
    (run_code_result (.spawnError "") false).return_code = none ∧
    (run_code_result (.spawnError "") false).message = "Runtime error" ∧
    "Runtime error" ≠ "Server error" := by decide

/-- C2 counterexample: for the malformed single-token telemetry line
"garbage" the returned message is the Python unpack-exception text, not
"Server error" as the claim states. -/
theorem C2_counterexample_message_is_exception_text :
    (run_code_result (.completed "out" "garbage" 0) false).message
      = "not enough values to unpack (expected 2, got 1)" ∧
    (run_code_result (.completed "out" "garbage" 0) false).message
      ≠ "Server error" := by decide

/-- C2 amended: when the telemetry cannot be decoded, no exception
reaches the caller (the embedded pipeline is total and the worker's
`except` clause stores the exception), and the returned result carries
the exception's own non-empty text as its message — which therefore
short-circuits the classifier and is not rewritten to "Server error". -/
theorem C2_malformed_telemetry_returns_exception_message
    (stdout stderr : String) (rc : ℤ) (w : Bool) (e : ExecError)
    (hparse : parseStderr stderr = .error e) :
    (run_code_result (.completed stdout stderr rc) w).message = excMessage e ∧
    (run_code_result (.completed stdout stderr rc) w).message ≠ "" := by
  have ht := target_completed_error stdout stderr rc e hparse
  have hne := excMessage_ne_empty e
  unfold run_code_result run_command
  rw [ht]
  cases w <;> simp [classify_run_code, hne]

theorem C2_malformed_telemetry_returns_exception_message_witness :
    (run_code_result (.completed "out" "garbage" 0) false).message
      = excMessage (.notEnoughValues 2 1) ∧
    (run_code_result (.completed "out" "garbage" 0) false).message ≠ "" :=
  C2_malformed_telemetry_returns_exception_message "out" "garbage" 0 false
    (.notEnoughValues 2 1) (by decide)

/-- C3 counterexample: at the only invocation the code performs
(`timeout = 5` for both), the watchdog window `thread.join(timeout)`
equals the `--time_limit` handed to nsjail — it is not strictly
greater. -/
theorem C3_counterexample_watchdog_not_strictly_greater :
    ("--time_limit=" ++ toString 5) ∈ full_command 1000 5 "/tmp/job" ["python3"] ∧
    ¬ watchdog_window 5 > 5 := by decide

/-- C3 amended: for every invocation, the wall-clock watchdog window
equals (hence is greater than or equal to, but never strictly greater
than) the time ceiling passed to the nsjail wrapper — both are the same
`timeout` parameter of `run_command`. -/
theorem C3_watchdog_window_equals_sandbox_limit
    (memory_limit timeLimit : ℕ) (tempdir : String) (command : List String) :
    ("--time_limit=" ++ toString timeLimit)
      ∈ full_command memory_limit timeLimit tempdir command ∧
    watchdog_window timeLimit = timeLimit := by
  refine ⟨?_, rfl⟩
  simp [full_command, nsjail_cmd]

/-- C4: a result whose message is still empty and whose timed-out flag
is set is classified "Time limit exceeded", whatever its exit code. -/
theorem C4_timeout_dominates_classification
    (r : RunResponse) (hmsg : r.message = "") (ht : r.timeout = true) :
    (classify_run_code r).message = "Time limit exceeded" := by
  simp [classify_run_code, hmsg, ht]

theorem C4_timeout_dominates_classification_witness :
    (classify_run_code { message := "", timeout := true, return_code := some 3 }).message
      = "Time limit exceeded" :=
  C4_timeout_dominates_classification _ rfl rfl

/-- C5: the classification block writes the message field exactly when
it is still empty — a non-empty message passes through with the whole
result untouched, an empty one is replaced by a non-empty
classification — and every other field of the result is unchanged. -/
theorem C5_classifier_writes_message_iff_empty_and_frames_rest (r : RunResponse) :
    (classify_run_code r).stdout = r.stdout ∧
    (classify_run_code r).stderr = r.stderr ∧
    (classify_run_code r).return_code = r.return_code ∧
    (classify_run_code r).elapsed_time = r.elapsed_time ∧
    (classify_run_code r).memory_usage = r.memory_usage ∧
    (classify_run_code r).timeout = r.timeout ∧
    (classify_run_code r).test_passed = r.test_passed ∧
    (r.message ≠ "" → classify_run_code r = r) ∧
    (r.message = "" → (classify_run_code r).message ≠ "") := by
  by_cases h1 : r.message = ""
  · simp only [classify_run_code, h1]
    split_ifs <;> simp_all
  · simp [classify_run_code, h1]

theorem C5_classifier_writes_message_iff_empty_and_frames_rest_witness :
    classify_run_code { message := "boom" } = { message := "boom" } ∧
    (classify_run_code { message := "" }).message ≠ "" :=
  ⟨(C5_classifier_writes_message_iff_empty_and_frames_rest
      { message := "boom" }).2.2.2.2.2.2.2.1 (by decide),
   (C5_classifier_writes_message_iff_empty_and_frames_rest
      { message := "" }).2.2.2.2.2.2.2.2 rfl⟩

/-- C8: when the supervised process exits with nsjail's kill code 137
(and the worker reaches its result-population block, i.e. the telemetry
decoded), the timed-out flag is set even though the outer
`thread.join(timeout)` watchdog did not fire. -/
theorem C8_exit_code_137_sets_timeout_without_watchdog
    (stdout stderr : String) (v : String × ℚ × ℤ)
    (hparse : parseStderr stderr = .ok v) :
    (run_command (.completed stdout stderr 137) false).timeout = true := by
  obtain ⟨cleaned, el, mem⟩ := v
  unfold run_command
  rw [target_completed_ok stdout stderr 137 cleaned el mem hparse]
  simp

/-- C9: on every failure path of the worker — the watchdog-independent
`subprocess.TimeoutExpired`, a spawn/I/O exception, or a telemetry parse
failure — the returned result keeps its defaults: empty stdout/stderr
and null return code, elapsed time and memory usage. -/
theorem C9_failure_paths_leave_result_unpopulated :
    (∀ w : Bool,
       (run_command .timedOut w).stdout = "" ∧
       (run_command .timedOut w).stderr = "" ∧
       (run_command .timedOut w).return_code = none ∧
       (run_command .timedOut w).elapsed_time = none ∧
       (run_command .timedOut w).memory_usage = none) ∧
    (∀ (msg : String) (w : Bool),
       (run_command (.spawnError msg) w).stdout = "" ∧
       (run_command (.spawnError msg) w).stderr = "" ∧
       (run_command (.spawnError msg) w).return_code = none ∧
       (run_command (.spawnError msg) w).elapsed_time = none ∧
       (run_command (.spawnError msg) w).memory_usage = none) ∧
    (∀ (stdout stderr : String) (rc : ℤ) (w : Bool) (e : ExecError),
       parseStderr stderr = .error e →
       (run_command (.completed stdout stderr rc) w).stdout = "" ∧
       (run_command (.completed stdout stderr rc) w).stderr = "" ∧
       (run_command (.completed stdout stderr rc) w).return_code = none ∧
       (run_command (.completed stdout stderr rc) w).elapsed_time = none ∧
       (run_command (.completed stdout stderr rc) w).memory_usage = none) := by
  refine ⟨?_, ?_, ?_⟩
  · intro w
    cases w <;> simp [run_command, target]
  · intro msg w
    cases w <;> simp [run_command, target]
  · intro stdout stderr rc w e hparse
    have ht := target_completed_error stdout stderr rc e hparse
    unfold run_command
    rw [ht]
    cases w <;> simp

theorem C9_failure_paths_leave_result_unpopulated_witness :
    (run_command (.completed "out" "garbage" 3) false).stdout = "" ∧
    (run_command (.completed "out" "garbage" 3) false).stderr = "" ∧
    (run_command (.completed "out" "garbage" 3) false).return_code = none ∧
    (run_command (.completed "out" "garbage" 3) false).elapsed_time = none ∧
    (run_command (.completed "out" "garbage" 3) false).memory_usage = none :=
  C9_failure_paths_leave_result_unpopulated.2.2 "out" "garbage" 3 false
    (.notEnoughValues 2 1) (by decide)

/-- C6: the last line of a multi-line stderr is telemetry with the lines
before it as cleaned stderr; a single-line stderr is entirely telemetry
with empty cleaned stderr; and on the two canonical examples the parsed
results are exactly cleaned stderr "line1\nline2" / "", elapsed 2.5 /
0.1 seconds and memory 50.0 / 1.0 MB. -/
theorem C6_last_line_is_telemetry :
    (∀ (init : List String) (last : String), init ≠ [] →
       (∀ l ∈ init, '\n' ∉ l.data) → '\n' ∉ last.data → last ≠ "" →
       split_telemetry (pyJoinLines (init ++ [last])) = (pyJoinLines init, last)) ∧
    (∀ l : String, '\n' ∉ l.data → split_telemetry l = ("", l)) ∧
    target (.completed "" "line1\nline2\n0:02.50 51200" 0) =
      { stdout := "", stderr := "line1\nline2", return_code := some 0,
        elapsed_time := some (5 / 2), memory_usage := some 50,
        timeout := false, message := "" } ∧
    target (.completed "" "0:00.10 1024" 0) =
      { stdout := "", stderr := "", return_code := some 0,
        elapsed_time := some (1 / 10), memory_usage := some 1,
        timeout := false, message := "" } := by
  refine ⟨split_telemetry_multi, split_telemetry_single, ?_, ?_⟩
  · have hel := tts_ms "0:02.50" "0" "02.50" "02" "50" 0 2 50 (by decide) (by decide)
      (by decide) (by decide) (by decide) (by decide)
    have hparse := parseStderr_ok "line1\nline2\n0:02.50 51200" "line1\nline2"
      "0:02.50 51200" "0:02.50" "51200" _ 51200 (by decide) (by decide) hel (by decide)
    rw [target_completed_ok _ _ _ _ _ _ hparse]
    have e1 : round3 (((0 * 60 + 2 : ℤ) : ℚ) + ((50 : ℤ) : ℚ) / 100) = 5 / 2 := by
      rw [round3_eq_of_mul_1000 _ 2500 (by norm_num)]
      norm_num
    have e2 : round3 ((51200 : ℤ) / 1024 : ℚ) = 50 := by
      rw [round3_eq_of_mul_1000 _ 50000 (by norm_num)]
      norm_num
    rw [e1, e2]
    simp [RunResponse.mk.injEq]
  · have hel := tts_ms "0:00.10" "0" "00.10" "00" "10" 0 0 10 (by decide) (by decide)
      (by decide) (by decide) (by decide) (by decide)
    have hparse := parseStderr_ok "0:00.10 1024" "" "0:00.10 1024" "0:00.10" "1024"
      _ 1024 (by decide) (by decide) hel (by decide)
    rw [target_completed_ok _ _ _ _ _ _ hparse]
    have e1 : round3 (((0 * 60 + 0 : ℤ) : ℚ) + ((10 : ℤ) : ℚ) / 100) = 1 / 10 := by
      rw [round3_eq_of_mul_1000 _ 100 (by norm_num)]
      norm_num
    have e2 : round3 ((1024 : ℤ) / 1024 : ℚ) = 1 := by
      rw [round3_eq_of_mul_1000 _ 1000 (by norm_num)]
      norm_num
    rw [e1, e2]
    simp [RunResponse.mk.injEq]

theorem C6_last_line_is_telemetry_witness :
    split_telemetry (pyJoinLines (["line1", "line2"] ++ ["0:02.50 51200"]))
      = (pyJoinLines ["line1", "line2"], "0:02.50 51200") ∧
    split_telemetry "0:00.10 1024" = ("", "0:00.10 1024") :=
  ⟨C6_last_line_is_telemetry.1 ["line1", "line2"] "0:02.50 51200"
      (by decide) (by decide) (by decide) (by decide),
   C6_last_line_is_telemetry.2.1 "0:00.10 1024" (by decide)⟩

/-- C7: for well-formed `H:MM:SS.cc` and `M:SS.cc` telemetry time
tokens (colon-separated integer fields, fractional token parsed as an
integer and divided by 100), `time_to_seconds` returns
hours*3600 + minutes*60 + seconds + fractional/100; and the worker
stores the parsed elapsed value and the memory figure divided by 1024,
each passed through rounding to 3 decimal places. -/
theorem C7_time_conversion_and_stored_fields :
    (∀ (tstr hs0 ms ss secs msecs : String) (h m s c : ℤ),
       strSplitOnChar ':' tstr = [hs0, ms, ss] →
       pyInt hs0 = .ok h → pyInt ms = .ok m →
       '.' ∈ ss.toList → strSplitOnChar '.' ss = [secs, msecs] →
       pyInt secs = .ok s → pyInt msecs = .ok c →
       time_to_seconds tstr = .ok (((h * 3600 + m * 60 + s : ℤ) : ℚ) + (c : ℚ) / 100)) ∧
    (∀ (tstr ms ss secs msecs : String) (m s c : ℤ),
       strSplitOnChar ':' tstr = [ms, ss] →
       pyInt ms = .ok m →
       '.' ∈ ss.toList → strSplitOnChar '.' ss = [secs, msecs] →
       pyInt secs = .ok s → pyInt msecs = .ok c →
       time_to_seconds tstr = .ok (((m * 60 + s : ℤ) : ℚ) + (c : ℚ) / 100)) ∧
    (∀ (stdout stderr : String) (rc : ℤ) (cleaned : String) (el : ℚ) (mem : ℤ),
       parseStderr stderr = .ok (cleaned, el, mem) →
       (target (.completed stdout stderr rc)).elapsed_time = some (round3 el) ∧
       (target (.completed stdout stderr rc)).memory_usage
         = some (round3 ((mem : ℚ) / 1024))) := by
  refine ⟨tts_hms, tts_ms, ?_⟩
  intro stdout stderr rc cleaned el mem hparse
  rw [target_completed_ok stdout stderr rc cleaned el mem hparse]
  exact ⟨rfl, rfl⟩

theorem C7_time_conversion_and_stored_fields_witness :
    time_to_seconds "1:02:03.45"
      = .ok (((1 * 3600 + 2 * 60 + 3 : ℤ) : ℚ) + ((45 : ℤ) : ℚ) / 100) ∧
    time_to_seconds "0:02.50"
      = .ok (((0 * 60 + 2 : ℤ) : ℚ) + ((50 : ℤ) : ℚ) / 100) ∧
    (target (.completed "" "0:00.10 1024" 0)).elapsed_time
      = some (round3 (((0 * 60 + 0 : ℤ) : ℚ) + ((10 : ℤ) : ℚ) / 100)) :=
  ⟨C7_time_conversion_and_stored_fields.1 "1:02:03.45" "1" "02" "03.45" "03" "45"
      1 2 3 45 (by decide) (by decide) (by decide) (by decide) (by decide)
      (by decide) (by decide),
   C7_time_conversion_and_stored_fields.2.1 "0:02.50" "0" "02.50" "02" "50"
      0 2 50 (by decide) (by decide) (by decide) (by decide) (by decide) (by decide),
   (C7_time_conversion_and_stored_fields.2.2 "" "0:00.10 1024" 0 ""
      (((0 * 60 + 0 : ℤ) : ℚ) + ((10 : ℤ) : ℚ) / 100) 1024
      (parseStderr_ok "0:00.10 1024" "" "0:00.10 1024" "0:00.10" "1024" _ 1024
        (by decide) (by decide)
        (tts_ms "0:00.10" "0" "00.10" "00" "10" 0 0 10 (by decide) (by decide)
          (by decide) (by decide) (by decide) (by decide))
        (by decide))).1⟩

/-- C10: `time_to_seconds` divides the integer value of the fractional
token by 100 whatever its width: a single-digit fraction `d` contributes
d/100, so "0:02.5" evaluates to 2.05, not 2.5. -/
theorem C10_single_digit_fraction_means_hundredths :
    (∀ d : ℕ, d < 10 →
       time_to_seconds ("0:02." ++ Nat.repr d) = .ok (2 + (d : ℚ) / 100)) ∧
    time_to_seconds "0:02.5" = .ok ((205 : ℚ) / 100) ∧
    (205 : ℚ) / 100 ≠ (5 : ℚ) / 2 := by
  refine ⟨?_, ?_, by norm_num⟩
  · intro d hd
    interval_cases d
    · rw [tts_ms ("0:02." ++ Nat.repr 0) "0" "02.0" "02" "0" 0 2 0 (by decide)
        (by decide) (by decide) (by decide) (by decide) (by decide)]
      norm_num [Except.ok.injEq]
    · rw [tts_ms ("0:02." ++ Nat.repr 1) "0" "02.1" "02" "1" 0 2 1 (by decide)
        (by decide) (by decide) (by decide) (by decide) (by decide)]
      norm_num [Except.ok.injEq]
    · rw [tts_ms ("0:02." ++ Nat.repr 2) "0" "02.2" "02" "2" 0 2 2 (by decide)
        (by decide) (by decide) (by decide) (by decide) (by decide)]
      norm_num [Except.ok.injEq]
    · rw [tts_ms ("0:02." ++ Nat.repr 3) "0" "02.3" "02" "3" 0 2 3 (by decide)
        (by decide) (by decide) (by decide) (by decide) (by decide)]
      norm_num [Except.ok.injEq]
    · rw [tts_ms ("0:02." ++ Nat.repr 4) "0" "02.4" "02" "4" 0 2 4 (by decide)
        (by decide) (by decide) (by decide) (by decide) (by decide)]
      norm_num [Except.ok.injEq]
    · rw [tts_ms ("0:02." ++ Nat.repr 5) "0" "02.5" "02" "5" 0 2 5 (by decide)
        (by decide) (by decide) (by decide) (by decide) (by decide)]
      norm_num [Except.ok.injEq]
    · rw [tts_ms ("0:02." ++ Nat.repr 6) "0" "02.6" "02" "6" 0 2 6 (by decide)
        (by decide) (by decide) (by decide) (by decide) (by decide)]
      norm_num [Except.ok.injEq]
    · rw [tts_ms ("0:02." ++ Nat.repr 7) "0" "02.7" "02" "7" 0 2 7 (by decide)
        (by decide) (by decide) (by decide) (by decide) (by decide)]
      norm_num [Except.ok.injEq]
    · rw [tts_ms ("0:02." ++ Nat.repr 8) "0" "02.8" "02" "8" 0 2 8 (by decide)
        (by decide) (by decide) (by decide) (by decide) (by decide)]
      norm_num [Except.ok.injEq]
    · rw [tts_ms ("0:02." ++ Nat.repr 9) "0" "02.9" "02" "9" 0 2 9 (by decide)
        (by decide) (by decide) (by decide) (by decide) (by decide)]
      norm_num [Except.ok.injEq]
  · rw [tts_ms "0:02.5" "0" "02.5" "02" "5" 0 2 5 (by decide) (by decide)
      (by decide) (by decide) (by decide) (by decide)]
    norm_num [Except.ok.injEq]

theorem C10_single_digit_fraction_means_hundredths_witness :
    time_to_seconds ("0:02." ++ Nat.repr 5) = .ok (2 + ((5 : ℕ) : ℚ) / 100) :=
  C10_single_digit_fraction_means_hundredths.1 5 (by decide)

theorem C8_exit_code_137_sets_timeout_without_watchdog_witness :
    (run_command (.completed "" "0:00.10 1024" 137) false).timeout = true :=
  C8_exit_code_137_sets_timeout_without_watchdog "" "0:00.10 1024"
    ("", ((0 * 60 + 0 : ℤ) : ℚ) + ((10 : ℤ) : ℚ) / 100, 1024)
    (parseStderr_ok "0:00.10 1024" "" "0:00.10 1024" "0:00.10" "1024" _ 1024
      (by decide) (by decide)
      (tts_ms "0:00.10" "0" "00.10" "00" "10" 0 0 10 (by decide) (by decide)
        (by decide) (by decide) (by decide) (by decide))
      (by decide))
